import Mathlib

/-!
Verification of the HTTP backend of ovirt-imageio
(`src/common/ovirt_imageio_common/backends/http.py`).

The backend exposes a remote disk image over HTTPS as a seekable block
device.  We embed the pure content of each method: state (`Backend`) is
passed explicitly, the network is modelled by the response the server
would give to each request, and every operation additionally returns the
list of wire requests it issued.  Python exceptions are modelled by the
`PyErr` sum and `Except`.
-/

namespace HttpBackend

/-- A JSON value, as produced by `json.loads`.  Numbers are modelled as
integers, which covers every value this protocol carries (offsets,
sizes, flags, strings). -/
inductive Json where
  | null : Json
  | bool (b : Bool) : Json
  | num (n : Int) : Json
  | str (s : String) : Json
  | arr (xs : List Json) : Json
  | obj (kvs : List (String × Json)) : Json

/-- Python truthiness (`if not x`) for the JSON values that can appear in
the options dict: `None`, `False`, `0`, `""`, `[]` and the empty object are
falsy, everything else is truthy. -/
def Json.truthy : Json → Bool
  | .null => false
  | .bool b => b
  | .num n => n != 0
  | .str s => s != ""
  | .arr xs => !xs.isEmpty
  | .obj kvs => !kvs.isEmpty

mutual

/-- Equality of JSON values, modelling the Python `==` used by dict key
lookup on the values this protocol carries. -/
def Json.beq : Json → Json → Bool
  | .null, .null => true
  | .bool a, .bool b => a == b
  | .num a, .num b => a == b
  | .str a, .str b => a == b
  | .arr xs, .arr ys => Json.beqList xs ys
  | .obj kvs, .obj kws => Json.beqObj kvs kws
  | _, _ => false

def Json.beqList : List Json → List Json → Bool
  | [], [] => true
  | x :: xs, y :: ys => Json.beq x y && Json.beqList xs ys
  | _, _ => false

def Json.beqObj : List (String × Json) → List (String × Json) → Bool
  | [], [] => true
  | (k, v) :: xs, (l, w) :: ys => k == l && Json.beq v w && Json.beqObj xs ys
  | _, _ => false

end

/-- Python exceptions raised by the backend.
`runtimeError` is `RuntimeError` — the generic protocol error of this code
(the spec names it ProtocolError); `unsupportedOperation` is
`errors.UnsupportedOperation`.  The remaining kinds are the builtin
exceptions that dynamic operations can raise. -/
inductive PyErr where
  | runtimeError (msg : String) : PyErr
  | unsupportedOperation (msg : String) : PyErr
  | typeError : PyErr
  | attributeError : PyErr
  | valueError : PyErr
  | keyError : PyErr
  | indexError : PyErr
deriving DecidableEq

/-- Modelled from the spec: `backends/image.py` is not under `src/`.
Spec §3 gives `ZeroExtent` the fields `start`, `length`, `zero`, `hole`;
the call sites in `http.py` supply only `start`, `length` and `zero`, so
`hole` takes its safe default `false` (spec §9: every capability-like
field defaults to its safe value). -/
structure ZeroExtent where
  start : Int
  length : Int
  zero : Bool
  hole : Bool := false
deriving DecidableEq

/-- Modelled from the spec: `backends/image.py` is not under `src/`.
Spec §3 gives `DirtyExtent` the fields `start`, `length`, `dirty`. -/
structure DirtyExtent where
  start : Int
  length : Int
  dirty : Bool
deriving DecidableEq

/-- The tagged union of extent variants, keyed by the query context
(spec §9). -/
inductive Extent where
  | zeroE (e : ZeroExtent) : Extent
  | dirtyE (e : DirtyExtent) : Extent
deriving DecidableEq

def Extent.start : Extent → Int
  | .zeroE e => e.start
  | .dirtyE e => e.start

def Extent.length : Extent → Int
  | .zeroE e => e.length
  | .dirtyE e => e.length

/-- A wire request issued by the backend, one constructor per request
call site in `http.py`. -/
inductive Request where
  /-- `_get`: ranged GET; the range header is `bytes=first-last`. -/
  | getRange (path : String) (first last : Int) : Request
  /-- `_put_header` + `send`: PUT with content-length, content-range and
  the body bytes. -/
  | putReq (path : String) (content_length : Nat) (content_range : String)
      (body : List Nat) : Request
  /-- `_patch`: PATCH with a JSON body. -/
  | patchReq (path : String) (body : Json) : Request
  /-- `_options`: OPTIONS capability probe. -/
  | optionsReq (path : String) : Request
  /-- `_get_extents`: GET on `path/extents?context=...`. -/
  | getExtents (path : String) : Request
  /-- `_emulate_head`: plain GET used only for its content-length. -/
  | getHead (path : String) : Request

def Request.path : Request → String
  | .getRange p _ _ => p
  | .putReq p _ _ _ => p
  | .patchReq p _ => p
  | .optionsReq p => p
  | .getExtents p => p
  | .getHead p => p

/-- The state of `Backend` (`__init__`): current position, lazily
resolved size (`self._size`), the per-context extent cache
(`self._extents`, a dict), and the negotiated capability flags. -/
structure Backend where
  url_path : String
  position : Int
  size_cache : Option Int
  extents_cache : List (String × List Extent)
  can_extents : Bool
  can_zero : Bool
  can_flush : Bool
deriving DecidableEq

/-- Response to the extents query for one context: HTTP status and the
decoded JSON body (`none` models a body `json.loads` rejects). -/
structure ExtResponse where
  status : Nat
  body : Option Json

/-- Response to the size-emulation GET: status and the integer value of
its content-length header. -/
structure HeadResponse where
  status : Nat
  content_length : Int
deriving DecidableEq

/-- The part of the server consulted by `size`, `seek` and `extents`:
a response per extents context, and the head-emulation response. -/
structure Server where
  extents_res : String → ExtResponse
  head_res : HeadResponse

/-- Response to the ranged GET of `readinto`: status, the integer value
of the content-length header, and the bytes available from the body. -/
structure GetResponse where
  status : Nat
  content_length : Int
  body : List Nat
deriving DecidableEq

/-- Response to a PUT or PATCH: only the status is consulted. -/
structure StatusResponse where
  status : Nat
deriving DecidableEq

/-! ## Capability negotiation (`_options`) -/

/-- A Python dict with JSON keys and values, as an insertion-ordered
association list (keys unique). -/
abbrev PyDict := List (Json × Json)

def PyDict.get? (d : PyDict) (k : Json) : Option Json :=
  match d with
  | [] => none
  | (k₀, v₀) :: rest => if Json.beq k₀ k then some v₀ else PyDict.get? rest k

/-- `d[k] = v`: replace the value of an existing key, else append. -/
def PyDict.set (d : PyDict) (k v : Json) : PyDict :=
  match d with
  | [] => [(k, v)]
  | (k₀, v₀) :: rest =>
    if Json.beq k₀ k then (k₀, v) :: rest else (k₀, v₀) :: PyDict.set rest k v

/-- `d.pop(k, default)` side: the dict with `k` removed. -/
def PyDict.erase (d : PyDict) (k : Json) : PyDict :=
  match d with
  | [] => []
  | (k₀, v₀) :: rest =>
    if Json.beq k₀ k then rest else (k₀, v₀) :: PyDict.erase rest k

/-- Flatten the popped `features` value into the dict:
`for feature in options.pop("features", []): options[feature] = True`.
Iterating a JSON array sets one key per element (lists and objects are
unhashable keys — `TypeError`); iterating a string sets one single-char
key per character; iterating any other value raises `TypeError`. -/
def flattenFeatures (d : PyDict) (feats : Json) : Except PyErr PyDict :=
  match feats with
  | .arr xs =>
    xs.foldlM (fun acc x =>
      match x with
      | .arr _ => Except.error PyErr.typeError
      | .obj _ => Except.error PyErr.typeError
      | _ => Except.ok (PyDict.set acc x (.bool true))) d
  | .str s =>
    Except.ok (s.toList.foldl
      (fun acc c => PyDict.set acc (.str (String.mk [c])) (.bool true)) d)
  | _ => Except.error PyErr.typeError

/-- `Backend._options`.  Input: the status of the OPTIONS response and
its body after `json.loads` (`none` when the body is not valid JSON —
the `ValueError` the code catches).  Status 405 (method not allowed) and
204 (no content) give an empty dict; any other non-200 status raises
`RuntimeError`; an unparsable body gives an empty dict; then the
`features` list is popped and flattened.  A valid-JSON body that is not
an object crashes on `options.pop`: a list raises `TypeError`
(`list.pop` takes a single integer index), anything else raises
`AttributeError` (no `pop` attribute) — these exceptions are not caught,
so `open` fails. -/
def options_result (status : Nat) (body : Option Json) :
    Except PyErr PyDict :=
  if status = 405 then Except.ok []
  else if status = 204 then Except.ok []
  else if status ≠ 200 then Except.error (PyErr.runtimeError "Error OPTIONS")
  else
    match body with
    | none => Except.ok []
    | some (.obj kvs) =>
      let d : PyDict := kvs.map (fun kv => (Json.str kv.1, kv.2))
      let feats := (PyDict.get? d (.str "features")).getD (.arr [])
      flattenFeatures (PyDict.erase d (.str "features")) feats
    | some (.arr _) => Except.error PyErr.typeError
    | some _ => Except.error PyErr.attributeError

/-- The negotiated capability set (spec §4.2): the flags `__init__`
reads from the options dict with `options.get(..., False)` (consumed by
truthiness), and the raw `unix_socket` entry. -/
structure Caps where
  can_extents : Bool
  can_zero : Bool
  can_flush : Bool
  unix_socket : Option Json

/-- Capability negotiation as performed by `__init__` on the result of
`_options`. -/
def negotiate (status : Nat) (body : Option Json) : Except PyErr Caps :=
  (options_result status body).map (fun opts =>
    { can_extents := (((PyDict.get? opts (.str "extents")).getD (.bool false))).truthy
      can_zero := (((PyDict.get? opts (.str "zero")).getD (.bool false))).truthy
      can_flush := (((PyDict.get? opts (.str "flush")).getD (.bool false))).truthy
      unix_socket := PyDict.get? opts (.str "unix_socket") })

/-- A fresh backend as built by `__init__`: position 0, unresolved size,
empty extent cache, negotiated flags. -/
def init_backend (path : String) (caps : Caps) : Backend :=
  { url_path := path
    position := 0
    size_cache := none
    extents_cache := []
    can_extents := caps.can_extents
    can_zero := caps.can_zero
    can_flush := caps.can_flush }

/-! ## Read path (`_get`, `_read_all`, `readinto`) -/

/-- The `RuntimeError` text of `_get` for a non-206 status (the source
appends up to 512 bytes of the response body, elided here). -/
def getStatusErrorMsg (pos : Int) (length : Nat) : String :=
  "Error GET offset=" ++ toString pos ++ " length=" ++ toString length

/-- The `RuntimeError` text of `_get` for a content-length mismatch. -/
def contentLengthErrorMsg (got : Int) (expected : Nat) : String :=
  "Unexpected content_length=" ++ toString got
    ++ " expected=" ++ toString expected

/-- `Backend._get`: send a ranged GET for `length` bytes at the current
position; the response status must be 206 (partial content) and its
content-length header must equal `length`, else `RuntimeError`. -/
def get (b : Backend) (length : Nat) (res : GetResponse) :
    Except PyErr GetResponse × List Request :=
  let req := Request.getRange b.url_path b.position (b.position + length - 1)
  if res.status ≠ 206 then
    (Except.error (PyErr.runtimeError (getStatusErrorMsg b.position length)),
      [req])
  else if res.content_length ≠ (length : Int) then
    (Except.error
      (PyErr.runtimeError (contentLengthErrorMsg res.content_length length)),
      [req])
  else
    (Except.ok res, [req])

/-- `Backend._read_all`: copy the response body into the caller buffer,
looping until the buffer is full; a premature end of data raises
`RuntimeError` after the available bytes were copied.  The buffer is a
byte list; the result is the buffer after the call. -/
def read_all (res : GetResponse) (buf : List Nat) :
    Except PyErr Unit × List Nat :=
  if buf.length ≤ res.body.length then
    (Except.ok (), res.body.take buf.length)
  else
    (Except.error
      (PyErr.runtimeError
        ("Expected " ++ toString buf.length ++ " byes, got "
          ++ toString res.body.length ++ " bytes")),
      res.body ++ buf.drop res.body.length)

/-- `Backend.readinto`: ranged GET at the current position for
`len(buf)` bytes, copy the body into `buf`, then advance the position.
Returns the result, the backend state, the buffer after the call and
the requests issued. -/
def readinto (b : Backend) (buf : List Nat) (res : GetResponse) :
    Except PyErr Nat × Backend × List Nat × List Request :=
  let length := buf.length
  match get b length res with
  | (Except.error e, reqs) => (Except.error e, b, buf, reqs)
  | (Except.ok r, reqs) =>
    match read_all r buf with
    | (Except.error e, buf2) => (Except.error e, b, buf2, reqs)
    | (Except.ok _, buf2) =>
      (Except.ok length, { b with position := b.position + length }, buf2,
        reqs)

/-! ## Write path (`_put_header`, `write`) -/

/-- The content-range header of `_put_header`:
`bytes <position>-<position+length-1>/*`. -/
def contentRange (pos : Int) (length : Nat) : String :=
  "bytes " ++ toString pos ++ "-" ++ toString (pos + length - 1) ++ "/*"

/-- The path `_put_header` sends the PUT to: `?flush=n` is appended
exactly when the server advertised the flush capability. -/
def writePath (b : Backend) : String :=
  if b.can_flush then b.url_path ++ "?flush=n" else b.url_path

/-- `Backend._put_header` together with the body send: the full PUT
request. -/
def put_header (b : Backend) (buf : List Nat) : Request :=
  Request.putReq (writePath b) buf.length (contentRange b.position buf.length)
    buf

/-- `Backend.write`: PUT `buf` at the current position; a non-200 status
raises `RuntimeError` (with up to 512 bytes of the response body,
elided); on success the position advances by `len(buf)`. -/
def write (b : Backend) (buf : List Nat) (res : StatusResponse) :
    Except PyErr Nat × Backend × List Request :=
  let length := buf.length
  let req := put_header b buf
  if res.status ≠ 200 then
    (Except.error
      (PyErr.runtimeError
        ("Error PUT offset=" ++ toString b.position ++ " length="
          ++ toString length)),
      b, [req])
  else
    (Except.ok length, { b with position := b.position + length }, [req])

/-! ## PATCH path (`_patch`, `zero`, `flush`) -/

/-- `Backend._patch`: PATCH with a JSON body; a non-200 status raises
`RuntimeError`. -/
def patch (b : Backend) (msg : Json) (res : StatusResponse) :
    Except PyErr Unit × List Request :=
  let req := Request.patchReq b.url_path msg
  if res.status ≠ 200 then
    (Except.error (PyErr.runtimeError "Error PATCH"), [req])
  else
    (Except.ok (), [req])

/-- The JSON body `zero` sends: insertion order `op`, `offset`, `size`,
`flush`; the flush directive is set exactly when the server lacks the
flush capability. -/
def zeroBody (b : Backend) (length : Int) : Json :=
  Json.obj
    [("op", Json.str "zero"), ("offset", Json.num b.position),
      ("size", Json.num length), ("flush", Json.bool (!b.can_flush))]

/-- `Backend.zero`: PATCH a zero request for `length` bytes at the
current position (the `can_zero` flag is never consulted); on success
the position advances by `length`. -/
def zero (b : Backend) (length : Int) (res : StatusResponse) :
    Except PyErr Int × Backend × List Request :=
  match patch b (zeroBody b length) res with
  | (Except.error e, reqs) => (Except.error e, b, reqs)
  | (Except.ok _, reqs) =>
    (Except.ok length, { b with position := b.position + length }, reqs)

/-- `Backend.flush`: PATCH a flush request; no positional effect. -/
def flush (b : Backend) (res : StatusResponse) :
    Except PyErr Unit × Backend × List Request :=
  match patch b (Json.obj [("op", Json.str "flush")]) res with
  | (r, reqs) => (r, b, reqs)

/-! ## Extents (`_get_extents`, `extents`) and size -/

/-- Decode one record of the extents response:
`cls(ext["start"], ext["length"], ext[context])` where `cls` is
`ZeroExtent` for the `"zero"` context and `DirtyExtent` for `"dirty"`.
Per the wire schema (spec §6) `start` and `length` are integers and the
context-named flag is a boolean; a missing key raises `KeyError` and a
record that is not an object raises `TypeError`. -/
def decode_extent (ctx : String) (j : Json) : Except PyErr Extent :=
  match j with
  | .obj kvs =>
    match List.lookup "start" kvs, List.lookup "length" kvs,
        List.lookup ctx kvs with
    | some (.num s), some (.num l), some (.bool f) =>
      Except.ok
        (if ctx = "zero" then Extent.zeroE ⟨s, l, f, false⟩
         else Extent.dirtyE ⟨s, l, f⟩)
    | _, _, _ => Except.error PyErr.keyError
  | _ => Except.error PyErr.typeError

/-- Decode the extents response body: a JSON array of records. -/
def decode_extents (ctx : String) (j : Json) : Except PyErr (List Extent) :=
  match j with
  | .arr xs => xs.mapM (decode_extent ctx)
  | _ => Except.error PyErr.typeError

/-- `Backend._get_extents`: GET on `path/extents?context=<ctx>`.
Status 404 raises `UnsupportedOperation` (the server does not support
this context), any other non-200 status raises `RuntimeError`, a body
that is not valid JSON raises the uncaught `ValueError` of `json.loads`,
else the records are decoded in order. -/
def get_extents (b : Backend) (ctx : String) (srv : Server) :
    Except PyErr (List Extent) × List Request :=
  let req := Request.getExtents (b.url_path ++ "/extents?context=" ++ ctx)
  let res := srv.extents_res ctx
  if res.status = 404 then
    (Except.error
      (PyErr.unsupportedOperation
        ("Server does not support " ++ ctx ++ " extents")),
      [req])
  else if res.status ≠ 200 then
    (Except.error (PyErr.runtimeError "Error EXTENTS"), [req])
  else
    match res.body with
    | none => (Except.error PyErr.valueError, [req])
    | some j => (decode_extents ctx j, [req])

/-- The supported branch of `Backend.extents` (`self._can_extents`
true): serve the per-context cache, fetching and caching on the first
call for the context. -/
def extents_sup (b : Backend) (ctx : String) (srv : Server) :
    Except PyErr (List Extent) × Backend × List Request :=
  match List.lookup ctx b.extents_cache with
  | some l => (Except.ok l, b, [])
  | none =>
    match get_extents b ctx srv with
    | (Except.error e, reqs) => (Except.error e, b, reqs)
    | (Except.ok l, reqs) =>
      (Except.ok l, { b with extents_cache := (ctx, l) :: b.extents_cache },
        reqs)

/-- `Backend._emulate_head`: plain GET; a non-200 status raises
`RuntimeError`, else the content-length header value is the size (the
connection is then discarded, which has no observable state here). -/
def emulate_head (b : Backend) (srv : Server) :
    Except PyErr Int × List Request :=
  let req := Request.getHead b.url_path
  if srv.head_res.status ≠ 200 then
    (Except.error (PyErr.runtimeError "Error GET"), [req])
  else
    (Except.ok srv.head_res.content_length, [req])

/-- `Backend.size`: lazily resolved and cached.  With the extents
capability, `list(self.extents())[-1]` resolves through the cached
extents of the `"zero"` context (`[-1]` on an empty list raises
`IndexError`); otherwise the size is emulated with a plain GET. -/
def size (b : Backend) (srv : Server) :
    Except PyErr Int × Backend × List Request :=
  match b.size_cache with
  | some n => (Except.ok n, b, [])
  | none =>
    if b.can_extents then
      match extents_sup b "zero" srv with
      | (Except.error e, b2, reqs) => (Except.error e, b2, reqs)
      | (Except.ok l, b2, reqs) =>
        match l.getLast? with
        | none => (Except.error PyErr.indexError, b2, reqs)
        | some last =>
          (Except.ok (last.start + last.length),
            { b2 with size_cache := some (last.start + last.length) }, reqs)
    else
      match emulate_head b srv with
      | (Except.error e, reqs) => (Except.error e, b, reqs)
      | (Except.ok n, reqs) =>
        (Except.ok n, { b with size_cache := some n }, reqs)

/-- `Backend.extents` (fully consumed): an invalid context raises
`RuntimeError`; without the extents capability the `"zero"` context
yields the single synthesized extent `ZeroExtent(0, self.size(), False)`
and the `"dirty"` context raises `UnsupportedOperation`; with the
capability the per-context cache is served. -/
def extents (b : Backend) (ctx : String) (srv : Server) :
    Except PyErr (List Extent) × Backend × List Request :=
  if ¬(ctx = "zero" ∨ ctx = "dirty") then
    (Except.error (PyErr.runtimeError ("Invalid context: " ++ ctx)), b, [])
  else if b.can_extents = false then
    if ctx = "zero" then
      match size b srv with
      | (Except.error e, b2, reqs) => (Except.error e, b2, reqs)
      | (Except.ok sz, b2, reqs) =>
        (Except.ok [Extent.zeroE ⟨0, sz, false, false⟩], b2, reqs)
    else
      (Except.error
        (PyErr.unsupportedOperation "Server does not support dirty extents"),
        b, [])
  else
    extents_sup b ctx srv

/-! ## Position (`tell`, `seek`) -/

def tell (b : Backend) : Int :=
  b.position

/-- `Backend.seek`: `how` 0 is `SEEK_SET`, 1 is `SEEK_CUR`, 2 is
`SEEK_END` (which resolves `size()`); any other value falls through the
`if`/`elif` chain, leaving the position unchanged.  Returns the
resulting position. -/
def seek (b : Backend) (n : Int) (how : Int) (srv : Server) :
    Except PyErr Int × Backend × List Request :=
  if how = 0 then
    (Except.ok n, { b with position := n }, [])
  else if how = 1 then
    (Except.ok (b.position + n), { b with position := b.position + n }, [])
  else if how = 2 then
    match size b srv with
    | (Except.error e, b2, reqs) => (Except.error e, b2, reqs)
    | (Except.ok sz, b2, reqs) =>
      (Except.ok (sz + n), { b2 with position := sz + n }, reqs)
  else
    (Except.ok b.position, b, [])

/-! ## Concrete instances used by witnesses and counterexamples -/

/-- A backend fresh from `open` against a fully capable server. -/
def exFull : Backend :=
  init_backend "/images/tkt" ⟨true, true, true, none⟩

/-- A backend fresh from `open` against a server with no capabilities. -/
def exBare : Backend :=
  init_backend "/images/tkt" ⟨false, false, false, none⟩

/-- A capability-less backend whose size is already resolved. -/
def exSized : Backend :=
  { exBare with size_cache := some 100 }

/-- A server whose extents responses carry one extent record and whose
head emulation reports 100 bytes. -/
def exSrv : Server :=
  { extents_res := fun _ =>
      { status := 200
        body := some (Json.arr
          [Json.obj
            [("start", Json.num 0), ("length", Json.num 100),
              ("zero", Json.bool true),
              ("dirty", Json.bool false)]]) }
    head_res := { status := 200, content_length := 100 } }

/-- A server that answers 404 to every extents query. -/
def exSrv404 : Server :=
  { extents_res := fun _ => { status := 404, body := none }
    head_res := { status := 200, content_length := 100 } }

/-- Whether a consumed extents result failed with
`errors.UnsupportedOperation`. -/
def isUnsupportedResult : Except PyErr (List Extent) → Bool
  | Except.error (PyErr.unsupportedOperation _) => true
  | _ => false

/-! ## Helper lemmas -/

theorem append_flush_ne (s : String) : s ++ "?flush=n" ≠ s := by
  intro h
  have hl := congrArg String.length h
  rw [String.length_append] at hl
  have h8 : ("?flush=n" : String).length = 8 := rfl
  omega

/-- The second component of `get_extents` is always the single extents
query. -/
theorem get_extents_requests (b : Backend) (ctx : String) (srv : Server) :
    (get_extents b ctx srv).2 =
      [Request.getExtents (b.url_path ++ "/extents?context=" ++ ctx)] := by
  simp only [get_extents]
  split
  · rfl
  · split
    · rfl
    · split <;> rfl

/-- `extents_sup` does not move the position. -/
theorem extents_sup_position (b : Backend) (ctx : String) (srv : Server) :
    ((extents_sup b ctx srv).2.1).position = b.position := by
  unfold extents_sup
  rcases List.lookup ctx b.extents_cache with _ | l
  · rcases get_extents b ctx srv with ⟨r | r, reqs⟩ <;> rfl
  · rfl

/-- `size` does not move the position. -/
theorem size_position (b : Backend) (srv : Server) :
    ((size b srv).2.1).position = b.position := by
  unfold size
  rcases b.size_cache with _ | n
  · by_cases hce : b.can_extents
    · simp only [hce, if_true]
      have hp := extents_sup_position b "zero" srv
      rcases h : extents_sup b "zero" srv with ⟨r | l, b2, reqs⟩ <;>
        rw [h] at hp
      · exact hp
      · dsimp only
        rcases l.getLast? with _ | last
        · exact hp
        · exact hp
    · simp only [hce, if_false]
      rcases emulate_head b srv with ⟨r | n, reqs⟩ <;> rfl
  · rfl

/-! ## Claims -/

/-- C1: when the server answers the ranged GET with status 206 but a
content-length that differs from `len(buf)`, `readinto` fails with the
protocol error (`RuntimeError`) before any bytes are copied into the
buffer, the backend state — in particular its position — is unchanged,
and only the one ranged GET was issued. -/
theorem readinto_content_length_mismatch
    (b : Backend) (buf : List Nat) (res : GetResponse)
    (h206 : res.status = 206)
    (hcl : res.content_length ≠ (buf.length : Int)) :
    readinto b buf res =
      (Except.error
        (PyErr.runtimeError
          (contentLengthErrorMsg res.content_length buf.length)),
        b, buf,
        [Request.getRange b.url_path b.position
          (b.position + buf.length - 1)]) := by
  unfold readinto get
  simp [h206, hcl]

/-- C1 witness: a 206 response declaring 5 bytes for a 3-byte buffer. -/
theorem readinto_content_length_mismatch_witness :
    readinto exFull [0, 0, 0] ⟨206, 5, []⟩ =
      (Except.error (PyErr.runtimeError (contentLengthErrorMsg 5 3)),
        exFull, [0, 0, 0], [Request.getRange "/images/tkt" 0 2]) := by
  exact readinto_content_length_mismatch exFull [0, 0, 0] ⟨206, 5, []⟩ rfl
    (by decide)

/-- C2 counterexample: the claim says `?flush=n` is appended exactly
when `can_flush` is false; on a backend with `can_flush` false the PUT
path is the bare resource path, without the suffix. -/
theorem write_flush_suffix_cex :
    exBare.can_flush = false ∧
    (put_header exBare [1, 2, 3, 4]).path = "/images/tkt" ∧
    (put_header exBare [1, 2, 3, 4]).path ≠ "/images/tkt" ++ "?flush=n" := by
  refine ⟨rfl, rfl, ?_⟩
  decide

/-- C2 (amended): every `write(buf)` call sends exactly one PUT, whose
path carries the `?flush=n` query suffix exactly when the server HAS the
flush capability (`can_flush` true), and is the bare resource path
exactly when `can_flush` is false. -/
theorem write_flush_suffix (b : Backend) (buf : List Nat)
    (res : StatusResponse) :
    (write b buf res).2.2 = [put_header b buf] ∧
    ((put_header b buf).path = b.url_path ++ "?flush=n" ↔
      b.can_flush = true) ∧
    ((put_header b buf).path = b.url_path ↔ b.can_flush = false) := by
  refine ⟨?_, ?_, ?_⟩
  · simp only [write]
    split <;> rfl
  · unfold put_header writePath Request.path
    by_cases h : b.can_flush
    · simp [h]
    · simp [h, Ne.symm (append_flush_ne b.url_path)]
  · unfold put_header writePath Request.path
    by_cases h : b.can_flush
    · simp [h, append_flush_ne b.url_path]
    · simp [h]

/-- C2 witness: with `can_flush` true the PUT path carries the suffix;
with `can_flush` false it is the bare path. -/
theorem write_flush_suffix_witness :
    (write exFull [1] ⟨200⟩).2.2 = [put_header exFull [1]] ∧
    (put_header exFull [1]).path = "/images/tkt" ++ "?flush=n" ∧
    (put_header exBare [1]).path = "/images/tkt" := by
  refine ⟨(write_flush_suffix exFull [1] ⟨200⟩).1, ?_, ?_⟩
  · exact (write_flush_suffix exFull [1] ⟨200⟩).2.1.mpr rfl
  · exact (write_flush_suffix exBare [1] ⟨200⟩).2.2.mpr rfl

/-- C3: the claim is right and the code has a slip.  A 200 OPTIONS
response whose body is valid JSON but not an object — e.g. the JSON
array `[]` — cannot be parsed as the expected capability structure, yet
`_options` does not fall back to the empty capability set: the uncaught
`TypeError` from `options.pop` propagates and `open` fails (for
non-object, non-array JSON it is an uncaught `AttributeError`), against
the stated policy of never failing open on an unparsable capability
response.  This theorem evaluates the code at the failing input. -/
theorem options_nonobject_body_fails :
    options_result 200 (some (Json.arr [])) =
      Except.error PyErr.typeError ∧
    negotiate 200 (some (Json.arr [])) = Except.error PyErr.typeError ∧
    negotiate 200 (some (Json.num 1)) =
      Except.error PyErr.attributeError ∧
    negotiate 405 none = Except.ok ⟨false, false, false, none⟩ := by
  exact ⟨rfl, rfl, rfl, rfl⟩

/-- The second component of `emulate_head` is always the single plain
GET. -/
theorem emulate_head_requests (b : Backend) (srv : Server) :
    (emulate_head b srv).2 = [Request.getHead b.url_path] := by
  simp only [emulate_head]
  split <;> rfl

/-- C4: without the extents capability, a consumed `extents("zero")`
(whenever `size()` resolves, to `sz`) yields exactly one extent starting
at 0 of length `sz`, flagged non-zero and non-hole, and none of the
requests issued is an extents query. -/
theorem extents_zero_no_capability
    (b : Backend) (srv : Server) (sz : Int) (b2 : Backend)
    (reqs : List Request)
    (hcap : b.can_extents = false)
    (hsize : size b srv = (Except.ok sz, b2, reqs)) :
    extents b "zero" srv =
      (Except.ok [Extent.zeroE ⟨0, sz, false, false⟩], b2, reqs) ∧
    ∀ p, Request.getExtents p ∉ reqs := by
  constructor
  · simp [extents, hcap, hsize]
  · intro p hp
    unfold size at hsize
    rcases hc : b.size_cache with _ | n <;> rw [hc] at hsize
    · simp only [hcap, Bool.false_eq_true, if_false] at hsize
      have hreq := emulate_head_requests b srv
      rcases hemu : emulate_head b srv with ⟨r | cl, rq⟩ <;>
        rw [hemu] at hsize hreq <;> dsimp only at hsize hreq
      · injection hsize with h1 _
        exact Except.noConfusion h1
      · injection hsize with h1 h2
        injection h2 with h2a h2b
        rw [← h2b, hreq] at hp
        rcases List.mem_singleton.mp hp with h
        exact Request.noConfusion h
    · dsimp only at hsize
      injection hsize with h1 h2
      injection h2 with h2a h2b
      rw [← h2b] at hp
      cases hp

/-- C4 witness: a capability-less backend with resolved size 100. -/
theorem extents_zero_no_capability_witness :
    extents exSized "zero" exSrv =
      (Except.ok [Extent.zeroE ⟨0, 100, false, false⟩], exSized, []) := by
  exact (extents_zero_no_capability exSized exSrv 100 exSized [] rfl rfl).1

/-- C5: without the extents capability, a consumed `extents("dirty")`
always fails with `errors.UnsupportedOperation`, yields nothing, and
issues no request. -/
theorem extents_dirty_no_capability (b : Backend) (srv : Server)
    (hcap : b.can_extents = false) :
    extents b "dirty" srv =
      (Except.error
        (PyErr.unsupportedOperation "Server does not support dirty extents"),
        b, []) := by
  simp [extents, hcap]

/-- C5 witness. -/
theorem extents_dirty_no_capability_witness :
    extents exBare "dirty" exSrv =
      (Except.error
        (PyErr.unsupportedOperation "Server does not support dirty extents"),
        exBare, []) := by
  exact extents_dirty_no_capability exBare exSrv rfl

/-- C6: with the extents capability, the first consumed
`extents(context)` call for a context not yet cached issues exactly one
extents query, and — when it succeeds — every subsequent
`extents(context)` call, against any server state, yields the same
extent list from the cache while issuing no request and leaving the
backend unchanged. -/
theorem extents_cached_replay
    (b : Backend) (ctx : String) (srv : Server) (l : List Extent)
    (b2 : Backend) (reqs : List Request)
    (hcap : b.can_extents = true)
    (hctx : ctx = "zero" ∨ ctx = "dirty")
    (hfirst : List.lookup ctx b.extents_cache = none)
    (hcall : extents b ctx srv = (Except.ok l, b2, reqs)) :
    reqs = [Request.getExtents (b.url_path ++ "/extents?context=" ++ ctx)] ∧
    ∀ srv2 : Server, extents b2 ctx srv2 = (Except.ok l, b2, []) := by
  unfold extents at hcall
  rw [if_neg (not_not_intro hctx)] at hcall
  rw [hcap] at hcall
  rw [if_neg (by decide)] at hcall
  unfold extents_sup at hcall
  rw [hfirst] at hcall
  have hreq := get_extents_requests b ctx srv
  rcases hg : get_extents b ctx srv with ⟨r | l0, rq⟩ <;>
    rw [hg] at hcall hreq <;> dsimp only at hcall hreq
  · injection hcall with h1 _
    exact Except.noConfusion h1
  · injection hcall with h1 h2
    injection h2 with h2a h2b
    injection h1 with hl
    subst hl
    subst h2a
    subst h2b
    refine ⟨hreq, ?_⟩
    intro srv2
    unfold extents
    rw [if_neg (not_not_intro hctx)]
    simp only [hcap, Bool.true_eq_false, if_false]
    unfold extents_sup
    simp [List.lookup]

/-- C6 witness: the first call against `exSrv` fetches and caches one
extent; the replay serves the cache with no request. -/
theorem extents_cached_replay_witness :
    [Request.getExtents "/images/tkt/extents?context=zero"] =
      [Request.getExtents ("/images/tkt" ++ "/extents?context=" ++ "zero")] ∧
    extents
      { exFull with
        extents_cache := [("zero", [Extent.zeroE ⟨0, 100, true, false⟩])] }
      "zero" exSrv404 =
      (Except.ok [Extent.zeroE ⟨0, 100, true, false⟩],
        { exFull with
          extents_cache := [("zero", [Extent.zeroE ⟨0, 100, true, false⟩])] },
        []) := by
  have h := extents_cached_replay exFull "zero" exSrv
    [Extent.zeroE ⟨0, 100, true, false⟩]
    { exFull with
      extents_cache := [("zero", [Extent.zeroE ⟨0, 100, true, false⟩])] }
    [Request.getExtents "/images/tkt/extents?context=zero"]
    rfl (Or.inl rfl) rfl rfl
  exact ⟨h.1, h.2 exSrv404⟩

/-- C7 counterexample: the claim says an invalid context fails with
`UnsupportedOperation`; consuming `extents("foo")` raises the generic
`RuntimeError` (the wire-error kind), not `UnsupportedOperation` —
though it does issue no request. -/
theorem extents_invalid_context_cex :
    (extents exFull "foo" exSrv).1 =
      Except.error (PyErr.runtimeError "Invalid context: foo") ∧
    isUnsupportedResult (extents exFull "foo" exSrv).1 = false ∧
    (extents exFull "foo" exSrv).2.2 = [] := by
  exact ⟨rfl, rfl, rfl⟩

/-- C7 (amended): for every context outside `zero`/`dirty`, consuming
`extents(context)` fails with the generic `RuntimeError` (the kind the
spec calls ProtocolError, not `UnsupportedOperation`), leaves the
backend unchanged and issues no network request. -/
theorem extents_invalid_context (b : Backend) (ctx : String) (srv : Server)
    (h1 : ctx ≠ "zero") (h2 : ctx ≠ "dirty") :
    extents b ctx srv =
      (Except.error (PyErr.runtimeError ("Invalid context: " ++ ctx)),
        b, []) := by
  unfold extents
  rw [if_pos]
  intro h
  exact h.elim h1 h2

/-- C7 witness. -/
theorem extents_invalid_context_witness :
    extents exFull "foo" exSrv =
      (Except.error (PyErr.runtimeError ("Invalid context: " ++ "foo")),
        exFull, []) := by
  exact extents_invalid_context exFull "foo" exSrv (by decide) (by decide)

/-- C8 counterexample: the claim says every completed seek with any
integer arguments leaves the position non-negative; from a fresh backend
(position 0), `seek(-1, SEEK_SET)` completes and leaves position -1. -/
theorem seek_negative_position_cex :
    (seek exBare (-1) 0 exSrv).2.1.position = -1 ∧
    (seek exBare (-1) 0 exSrv).2.1.position < 0 ∧
    (seek exBare (-1) 0 exSrv).1 = Except.ok (-1) := by
  refine ⟨rfl, by decide, rfl⟩

/-- C8 (amended): the position is preserved non-negative by every
operation whose arguments keep the target offset non-negative — from a
state with non-negative position: `seek(n, SEEK_SET)` with `0 ≤ n`;
`seek(n, SEEK_CUR)` with `0 ≤ position + n`; a completed
`seek(n, SEEK_END)` whose returned offset is non-negative (and a failed
one leaves the position unchanged); `seek` with an invalid whence;
`readinto` and `write` (they advance by the non-negative buffer
length, and leave the position unchanged on failure); and `zero(len)`
with `0 ≤ len`.  The code never checks, so a negative seek argument can
drive the position negative (see the counterexample). -/
theorem position_nonneg_preserved (b : Backend) (hpos : 0 ≤ b.position) :
    (∀ (n : Int) (srv : Server), 0 ≤ n →
      0 ≤ ((seek b n 0 srv).2.1).position) ∧
    (∀ (n : Int) (srv : Server), 0 ≤ b.position + n →
      0 ≤ ((seek b n 1 srv).2.1).position) ∧
    (∀ (n : Int) (srv : Server) (m : Int) (b2 : Backend)
        (reqs : List Request),
      seek b n 2 srv = (Except.ok m, b2, reqs) → 0 ≤ m →
      0 ≤ b2.position) ∧
    (∀ (n : Int) (srv : Server) (e : PyErr) (b2 : Backend)
        (reqs : List Request),
      seek b n 2 srv = (Except.error e, b2, reqs) → 0 ≤ b2.position) ∧
    (∀ (n how : Int) (srv : Server), how ≠ 0 → how ≠ 1 → how ≠ 2 →
      0 ≤ ((seek b n how srv).2.1).position) ∧
    (∀ (buf : List Nat) (res : GetResponse),
      0 ≤ ((readinto b buf res).2.1).position) ∧
    (∀ (buf : List Nat) (res : StatusResponse),
      0 ≤ ((write b buf res).2.1).position) ∧
    (∀ (len : Int) (res : StatusResponse), 0 ≤ len →
      0 ≤ ((zero b len res).2.1).position) := by
  refine ⟨?_, ?_, ?_, ?_, ?_, ?_, ?_, ?_⟩
  · intro n srv hn
    simpa [seek] using hn
  · intro n srv hn
    simpa [seek] using hn
  · intro n srv m b2 reqs h hm
    unfold seek at h
    rw [if_neg (by decide), if_neg (by decide), if_pos rfl] at h
    have hp := size_position b srv
    rcases hs : size b srv with ⟨r | sz, b3, rqs⟩ <;>
      rw [hs] at h hp <;> dsimp only at h hp
    · injection h with h1 _
      exact Except.noConfusion h1
    · injection h with h1 h2
      injection h2 with h2a h2b
      injection h1 with h1v
      rw [← h2a]
      dsimp only
      rw [h1v]
      exact hm
  · intro n srv e b2 reqs h
    unfold seek at h
    rw [if_neg (by decide), if_neg (by decide), if_pos rfl] at h
    have hp := size_position b srv
    rcases hs : size b srv with ⟨r | sz, b3, rqs⟩ <;>
      rw [hs] at h hp <;> dsimp only at h hp
    · injection h with h1 h2
      injection h2 with h2a h2b
      rw [← h2a, hp]
      exact hpos
    · injection h with h1 _
      exact Except.noConfusion h1
  · intro n how srv h0 h1 h2
    unfold seek
    rw [if_neg h0, if_neg h1, if_neg h2]
    exact hpos
  · intro buf res
    simp only [readinto]
    rcases get b buf.length res with ⟨r | r, reqs⟩ <;> dsimp only
    · exact hpos
    · rcases read_all r buf with ⟨q | q, buf2⟩ <;> dsimp only
      · exact hpos
      · omega
  · intro buf res
    unfold write
    dsimp only
    split
    · exact hpos
    · dsimp only
      omega
  · intro len res hlen
    unfold zero
    rcases patch b (zeroBody b len) res with ⟨r | r, reqs⟩
    · exact hpos
    · dsimp only
      omega

/-- C8 witness: a fresh backend moved with non-negative arguments stays
at a non-negative position. -/
theorem position_nonneg_preserved_witness :
    0 ≤ ((seek exBare 5 0 exSrv).2.1).position ∧
    0 ≤ ((zero exBare 4096 ⟨200⟩).2.1).position := by
  exact ⟨(position_nonneg_preserved exBare (by decide)).1 5 exSrv (by decide),
    (position_nonneg_preserved exBare (by decide)).2.2.2.2.2.2.2 4096 ⟨200⟩
      (by decide)⟩

/-- C9: for every backend — whatever `can_zero` is — `zero(length)`
sends exactly one PATCH whose JSON body is
`op: "zero", offset: position, size: length, flush: not can_flush`
(so the flush directive is set iff `can_flush` is false), and on a 200
response advances the position by `length` and returns `length`. -/
theorem zero_sends_patch (b : Backend) (len : Int) (res : StatusResponse) :
    (zero b len res).2.2 =
      [Request.patchReq b.url_path
        (Json.obj
          [("op", Json.str "zero"), ("offset", Json.num b.position),
            ("size", Json.num len),
            ("flush", Json.bool (!b.can_flush))])] ∧
    (res.status = 200 →
      zero b len res =
        (Except.ok len, { b with position := b.position + len },
          [Request.patchReq b.url_path
            (Json.obj
              [("op", Json.str "zero"), ("offset", Json.num b.position),
                ("size", Json.num len),
                ("flush", Json.bool (!b.can_flush))])])) := by
  constructor
  · by_cases h : res.status = 200 <;> simp [zero, patch, zeroBody, h]
  · intro h
    simp [zero, patch, zeroBody, h]

/-- C9 witness: a 200 response to `zero(4096)` on a fresh backend whose
server lacks flush (`flush` directive true). -/
theorem zero_sends_patch_witness :
    zero exBare 4096 ⟨200⟩ =
      (Except.ok 4096, { exBare with position := 4096 },
        [Request.patchReq "/images/tkt"
          (Json.obj
            [("op", Json.str "zero"), ("offset", Json.num 0),
              ("size", Json.num 4096), ("flush", Json.bool true)])]) := by
  exact (zero_sends_patch exBare 4096 ⟨200⟩).2 rfl

/-- C10: `seek(n, whence)` with a whence value outside
`SEEK_SET`/`SEEK_CUR`/`SEEK_END` does not fail: it leaves the backend —
in particular its position — unchanged, returns the current position
and issues no request. -/
theorem seek_invalid_whence (b : Backend) (n how : Int) (srv : Server)
    (h0 : how ≠ 0) (h1 : how ≠ 1) (h2 : how ≠ 2) :
    seek b n how srv = (Except.ok b.position, b, []) := by
  unfold seek
  rw [if_neg h0, if_neg h1, if_neg h2]

/-- C10 witness: whence 3. -/
theorem seek_invalid_whence_witness :
    seek exBare 7 3 exSrv = (Except.ok 0, exBare, []) := by
  exact seek_invalid_whence exBare 7 3 exSrv (by decide) (by decide)
    (by decide)

end HttpBackend
